import Mathlib

/-!
Verification of the reflex radix-themes component layer.

This file gives a shallow embedding of the code under
`reflex/components/radix/themes/base.py`,
`reflex/components/radix/themes/layout/container.py` and the compile
benchmark, together with theorems checking the natural-language
specification against it.  Parts of the framework that the sampled
source only declares or calls (the generic `Component`, `Var`,
`imports.merge_imports`, the app-wrap registry aggregation) are
modelled from the specification; each such definition carries a doc
comment saying so.
-/

namespace Reflex

/-- Modelled from the spec: a Var is `(name, is_local flag, dependencies)`
(§3 data model, §4.1).  The generic Var implementation is not part of the
sampled source; only its declared shape and operator contract are given
by the spec. -/
structure SVar where
  name : String
  is_local : Bool := true
  dependencies : Finset String := ∅
  deriving DecidableEq

/-- Modelled from the spec: `Var.create(value)` wraps a literal, inferring
its type; `_var_is_local` is carried as given (§4.1).  `none` stands for
the Python `None` literal. -/
def varCreateWith (value : Option String) (local_flag : Bool) : SVar :=
  { name := value.getD "null", is_local := local_flag, dependencies := ∅ }

/-- Modelled from the spec: `Var.create` with the default local flag. -/
def varCreate (value : Option String) : SVar :=
  varCreateWith value true

/-- Modelled from the spec: the `+` operator on Vars composes the operand
texts and takes the union of the operand dependency sets (§4.1). -/
def SVar.add (a b : SVar) : SVar :=
  { name := "(" ++ a.name ++ " + " ++ b.name ++ ")",
    is_local := a.is_local && b.is_local,
    dependencies := a.dependencies ∪ b.dependencies }

/-- Modelled from the spec: indexing one Var by another (§4.1). -/
def SVar.index (a b : SVar) : SVar :=
  { name := a.name ++ "[" ++ b.name ++ "]",
    is_local := a.is_local && b.is_local,
    dependencies := a.dependencies ∪ b.dependencies }

/-- Modelled from the spec: boolean conjunction of two Vars (§4.1). -/
def SVar.booleanAnd (a b : SVar) : SVar :=
  { name := "(" ++ a.name ++ " && " ++ b.name ++ ")",
    is_local := a.is_local && b.is_local,
    dependencies := a.dependencies ∪ b.dependencies }

/-- Modelled from the spec: boolean disjunction of two Vars (§4.1). -/
def SVar.booleanOr (a b : SVar) : SVar :=
  { name := "(" ++ a.name ++ " || " ++ b.name ++ ")",
    is_local := a.is_local && b.is_local,
    dependencies := a.dependencies ∪ b.dependencies }

/-- Modelled from the spec: string formatting splices one Var into the
render text of another (§4.1). -/
def SVar.format (a b : SVar) : SVar :=
  { name := "`" ++ a.name ++ "$\x7b" ++ b.name ++ "\x7d`",
    is_local := a.is_local && b.is_local,
    dependencies := a.dependencies ∪ b.dependencies }

/-- Modelled from the spec: attribute access returns a new Var over the
same state, so its dependency set is the operand's own set (§4.1). -/
def SVar.getattr (a : SVar) (attr : String) : SVar :=
  { name := a.name ++ "." ++ attr,
    is_local := a.is_local,
    dependencies := a.dependencies }

/-- A component node: tag, props (name to Var) and children, exactly the
tree shape the emitter consumes (§3 Component Node). -/
inductive CompTree where
  | node (tag : String) (props : List (String × SVar)) (children : List CompTree)

/-- A rendered tag: name plus ordered props, as produced by `_render`. -/
structure Tag where
  name : String
  props : List (String × SVar)
  deriving DecidableEq

/-- `Tag.add_props` appends the given prop to the tag, as
`tag.add_props(css=...)` does in `Theme._render`. -/
def Tag.addProp (t : Tag) (k : String) (v : SVar) : Tag :=
  { t with props := t.props ++ [(k, v)] }

/-- Modelled from the spec: the generic `Component._render` turns a node
into a Tag carrying the node's own props (§4.3); the generic renderer is
not part of the sampled source. -/
def baseRenderTag : CompTree → Tag
  | .node tag props _ => { name := tag, props := props }

/-- Render text of one prop. -/
def renderProp (p : String × SVar) : String :=
  " " ++ p.1 ++ "=" ++ p.2.name

/-- Render text of a prop list, in order. -/
def renderProps (ps : List (String × SVar)) : String :=
  (ps.map renderProp).foldl (fun a b => a ++ b) ""

mutual

/-- Modelled from the spec: the Tag/Render Emitter walks the tree
bottom-up, rendering each child and then the node's tag with its props
(§4.3). -/
def renderTree : CompTree → String
  | .node tag props children =>
      "<" ++ tag ++ renderProps props ++ ">" ++ renderChildren children
        ++ "</" ++ tag ++ ">"

/-- Bottom-up rendering of an ordered child list. -/
def renderChildren : List CompTree → String
  | [] => ""
  | c :: cs => renderTree c ++ renderChildren cs

end

/-- The fixed css Var added by `Theme._render`:
`Var.create("{{...theme.styles.global[':root'], ...theme.styles.global.body}}", _var_is_local=False)`. -/
def themeCssVar : SVar :=
  varCreateWith
    (some "\x7b\x7b...theme.styles.global[\x27:root\x27], ...theme.styles.global.body\x7d\x7d")
    false

/-- `Theme._render`: take the superclass render of the node and add the
fixed `css` prop (base.py lines 193-201). -/
def Theme.renderTag (t : CompTree) : Tag :=
  (baseRenderTag t).addProp "css" themeCssVar

/-- Full source text of a Theme node rendered through `Theme._render`:
the tag produced by `_render` with the children inlined bottom-up. -/
def Theme.renderText : CompTree → String
  | .node tag props children =>
      let rendered := Theme.renderTag (.node tag props children)
      "<" ++ rendered.name ++ renderProps rendered.props ++ ">"
        ++ renderChildren children ++ "</" ++ rendered.name ++ ">"

/-- A component instance as built by `create`: the fields that the
sampled source reads and writes (`library`, `tag`, `alias`,
`is_default`, and the prop bag passed at construction). -/
structure CompModel where
  library : Option String := none
  tag : Option String := none
  «alias» : Option String := none
  is_default : Bool := false
  deriving DecidableEq

/-- `RadixThemesComponent._rename_props`: the class attribute
`{"colorScheme": "color"}` (base.py lines 80-81). -/
def RadixThemesComponent.renameProps : List (String × String) :=
  [("colorScheme", "color")]

/-- `Theme` declares no `_rename_props` of its own, so it inherits the
base table. -/
def Theme.renameProps : List (String × String) :=
  RadixThemesComponent.renameProps

/-- `ThemePanel` declares no `_rename_props` of its own, so it inherits
the base table. -/
def ThemePanel.renameProps : List (String × String) :=
  RadixThemesComponent.renameProps

/-- `Container` declares no `_rename_props` of its own, so it inherits
the base table. -/
def Container.renameProps : List (String × String) :=
  RadixThemesComponent.renameProps

/-- Modelled from the spec: applying a prop-renaming table emits a
logical prop under the aliased attribute name, leaving unlisted props
unchanged (§4.2). -/
def applyRename (table : List (String × String)) (prop : String) : String :=
  match table.lookup prop with
  | some emitted => emitted
  | none => prop

/-- Python truthiness of `component.tag or component.__class__.__name__`:
an absent tag and an empty-string tag both fall through to the class
name. -/
def pyTagOrClassName (tag : Option String) (className : String) : String :=
  match tag with
  | some t => if t = "" then className else t
  | none => className

/-- The default of the `library` field declared on `RadixThemesComponent`
(base.py line 78), read back via `model_fields["library"].default`. -/
def radixThemesLibraryDefault : String := "@radix-ui/themes@^2.0.0"

/-- Modelled from the spec: the generic `Component.create` builds an
instance whose fields start from the class declarations (§4.2); the
generic implementation is not part of the sampled source. -/
def componentSuperCreate (classLibrary classTag : Option String)
    (classIsDefault : Bool) : CompModel :=
  { library := classLibrary, tag := classTag, «alias» := none,
    is_default := classIsDefault }

/-- `RadixThemesComponent.create` (base.py lines 83-109): call the
superclass create, default the `library` field when it is `None`, then
set `alias` to `"RadixThemes"` plus `component.tag or
component.__class__.__name__`. -/
def radixThemesCreate (classLibrary classTag : Option String)
    (className : String) : CompModel :=
  let component := componentSuperCreate classLibrary classTag false
  let component :=
    if component.library = none then
      { component with library := some radixThemesLibraryDefault }
    else component
  { component with
      «alias» := some ("RadixThemes" ++ pyTagOrClassName component.tag className) }

/-- `RadixThemesColorModeProvider.create()`: a plain `Component` subclass
whose class fields are the literals of base.py lines 216-221. -/
def radixThemesColorModeProvider : CompModel :=
  componentSuperCreate
    (some "/components/reflex/radix_themes_color_mode_provider.js")
    (some "RadixThemesColorModeProvider")
    true

/-- An app-wrap registry entry set, keyed by `(priority, identity)`. -/
abbrev AppWrapDict := List ((Nat × String) × CompModel)

/-- `RadixThemesComponent._get_app_wrap_components` (base.py lines
111-115): the single entry keyed `(45, "RadixThemesColorModeProvider")`. -/
def RadixThemesComponent.getAppWrapComponents : AppWrapDict :=
  [((45, "RadixThemesColorModeProvider"), radixThemesColorModeProvider)]

/-- Modelled from the spec: inserting one entry into the deduplicated
app-wrap registry keeps an entry whose key is already present (§4.2,
§9). -/
def registryInsert (r : AppWrapDict) (k : Nat × String) (c : CompModel) :
    AppWrapDict :=
  if (r.map Prod.fst).contains k then r else r ++ [(k, c)]

/-- Modelled from the spec: merging one component's app-wrap dict into
the page registry inserts each entry, deduplicating by key (§4.2, §9). -/
def registryMergeDict (r : AppWrapDict) (d : AppWrapDict) : AppWrapDict :=
  d.foldl (fun acc e => registryInsert acc e.1 e.2) r

/-- Modelled from the spec: the app-wrap registry collected over a page
holding `n` radix components, each contributing
`RadixThemesComponent._get_app_wrap_components` (§4.2, §6). -/
def appWrapOfPage (n : Nat) : AppWrapDict :=
  (List.replicate n RadixThemesComponent.getAppWrapComponents).foldl
    registryMergeDict []

/-- A literal prop value supplied at construction time: the string and
integer literals that `LiteralContainerSize` ranges over. -/
inductive PropVal where
  | str (s : String)
  | int (n : Int)
  deriving DecidableEq

/-- `LiteralContainerSize = Literal["1", "2", "3", "4", 1, 2, 3, 4]`
(container.py line 11), as a validator on literal prop values. -/
def literalContainerSizeOk : PropVal → Bool
  | .str s => s = "1" || s = "2" || s = "3" || s = "4"
  | .int n => n = 1 || n = 2 || n = 3 || n = 4

/-- The construction-time failure of `Component.create` (§7 taxonomy). -/
inductive CreateError where
  | invalidProp (name : String)
  deriving DecidableEq

/-- Modelled from the spec: `Component.create` validates each prop name
against the component's declared schema and each value against that
prop's literal/type constraint, failing with `InvalidProp` for unknown
or mistyped props (§4.2, §7); the generic implementation is not part of
the sampled source. -/
def validateProps (schema : List (String × (PropVal → Bool))) :
    List (String × PropVal) → Except CreateError (List (String × PropVal))
  | [] => .ok []
  | (name, v) :: rest =>
      match schema.lookup name with
      | none => .error (.invalidProp name)
      | some check =>
          if check v then
            (validateProps schema rest).map (fun r => (name, v) :: r)
          else .error (.invalidProp name)

/-- The prop schema `Container` declares in the sampled source: the
`size` prop constrained to `LiteralContainerSize` (container.py lines
22-23). -/
def containerSchema : List (String × (PropVal → Bool)) :=
  [("size", literalContainerSizeOk)]

/-- `Container.create` restricted to its declared schema: validate the
given props as the generic `create` does. -/
def containerCreate (props : List (String × PropVal)) :
    Except CreateError (List (String × PropVal)) :=
  validateProps containerSchema props

/-- Modelled from the spec: the attribute table `super()` exposes to
`Container._get_props_to_override`; the base classes are not part of the
sampled source, and per the spec's schema-composition hook (§9) — and
Container's own method name — the hook is spelled
`_get_props_to_override`. -/
def containerSuperAttrs (basePropsToOverride : List String) :
    List (String × List String) :=
  [("_get_props_to_override", basePropsToOverride)]

/-- `Container._get_props_to_override` (container.py lines 25-27): the
body reads the attribute spelled `_get_props_to_overide` from `super()`
— and does not call it — then appends `"size"`.  An absent attribute is
a Python `AttributeError`, modelled as `Except.error`.  (Were a method
of that misspelled name present, the uncalled access would yield a bound
method and `+ ["size"]` would raise `TypeError` instead.) -/
def containerGetPropsToOverride (basePropsToOverride : List String) :
    Except String (List String) :=
  match (containerSuperAttrs basePropsToOverride).lookup
      "_get_props_to_overide" with
  | some base => .ok (base ++ ["size"])
  | none => .error "AttributeError: _get_props_to_overide"

/-- A prop value inside `Theme.create`'s `props` dict: either a raw
Python value (`None` or a string) or a Var. -/
inductive PVal where
  | raw (s : Option String)
  | svar (v : SVar)
  deriving DecidableEq

/-- The `accent_color` argument of `Theme.create`: a Var, a literal
accent-color string, or omitted (`None`). -/
inductive AccentArg where
  | fromVar (v : SVar)
  | lit (s : String)
  | omitted
  deriving DecidableEq

/-- Python dict assignment `props[k] = v`: replace the binding if the
key is present, else add it. -/
def dictSet : List (String × PVal) → String → PVal → List (String × PVal)
  | [], k, v => [(k, v)]
  | (k1, v1) :: rest, k, v =>
      if k1 = k then (k, v) :: rest else (k1, v1) :: dictSet rest k v

/-- `ThemePanel.create()` as `RadixThemesComponent.create` builds it:
class library inherited from `RadixThemesComponent`, tag `"ThemePanel"`. -/
def themePanelComponent : CompModel :=
  radixThemesCreate (some radixThemesLibraryDefault) (some "ThemePanel")
    "ThemePanel"

/-- `Theme.create` (base.py lines 151-178) up to the final `super().create`
call: map `color_mode` to the `appearance` prop when given, prepend a
`ThemePanel` child when `theme_panel` is set, pass a non-Var
`accent_color` (including `None`) through `Var.create`, store the result
under `"accent_color"`, and return the children and props handed to the
superclass. -/
def themeCreateArgs (children : List CompModel) (color_mode : Option String)
    (theme_panel : Bool) (accent_color : AccentArg)
    (props : List (String × PVal)) :
    List CompModel × List (String × PVal) :=
  let props1 := match color_mode with
    | some cm => dictSet props "appearance" (.raw (some cm))
    | none => props
  let children1 := if theme_panel then themePanelComponent :: children
    else children
  let accentVar : SVar := match accent_color with
    | .fromVar v => v
    | .lit s => varCreate (some s)
    | .omitted => varCreate none
  (children1, dictSet props1 "accent_color" (.svar accentVar))

/-- An import entry: `imports.ImportVar(tag=..., is_default=...,
install=...)` as the sampled source constructs it. -/
structure ImportVar where
  tag : Option String
  is_default : Bool := false
  install : Bool := true
  deriving DecidableEq

/-- An import dict: library name to its list of import entries. -/
abbrev ImportDict := List (String × List ImportVar)

/-- All entries recorded for one library, in order. -/
def lookupLib : ImportDict → String → List ImportVar
  | [], _ => []
  | e :: es, lib => if e.1 = lib then e.2 ++ lookupLib es lib else lookupLib es lib

/-- An import entry is present for a library. -/
def ImportMem (d : ImportDict) (lib : String) (iv : ImportVar) : Prop :=
  iv ∈ lookupLib d lib

/-- Boolean form of `ImportMem`, used by the deduplicating merge. -/
def importMemB (d : ImportDict) (lib : String) (iv : ImportVar) : Bool :=
  decide (iv ∈ lookupLib d lib)

/-- Add one entry at the end of a library's list (creating the library
on first use). -/
def addToLib : ImportDict → String → ImportVar → ImportDict
  | [], lib, iv => [(lib, [iv])]
  | e :: es, lib, iv =>
      if e.1 = lib then (e.1, e.2 ++ [iv]) :: es else e :: addToLib es lib iv

/-- Modelled from the spec: inserting into the page-wide import table is
deduplicated — an entry already present for the library is not added
again (§4.3, §9). -/
def insertImport (d : ImportDict) (lib : String) (iv : ImportVar) :
    ImportDict :=
  if importMemB d lib iv then d else addToLib d lib iv

/-- The `(library, entry)` pairs of an import dict, in order. -/
def dictPairs (d : ImportDict) : List (String × ImportVar) :=
  (d.map (fun e => e.2.map (fun iv => (e.1, iv)))).flatten

/-- Modelled from the spec: `imports.merge_imports` folds the second
dict's entries into the first, deduplicating across the page (§4.3);
the implementation is not part of the sampled source. -/
def mergeImports (d1 d2 : ImportDict) : ImportDict :=
  (dictPairs d2).foldl (fun acc p => insertImport acc p.1 p.2) d1

/-- The stylesheet import `Theme._get_imports` adds:
`ImportVar(tag="@radix-ui/themes/styles.css", install=False)`. -/
def themeStylesCssImport : ImportVar :=
  { tag := some "@radix-ui/themes/styles.css", install := false }

/-- The default import `Theme._get_imports` adds:
`ImportVar(tag="theme", is_default=True)`. -/
def themeJsDefaultImport : ImportVar :=
  { tag := some "theme", is_default := true }

/-- The dict literal of `Theme._get_imports` (base.py lines 183-190). -/
def Theme.ownImports : ImportDict :=
  [("", [themeStylesCssImport]),
   ("/utils/theme.js", [themeJsDefaultImport])]

/-- `Theme._get_imports` (base.py lines 180-191): merge the superclass
imports with the Theme-specific dict. -/
def Theme.getImports (superImports : ImportDict) : ImportDict :=
  mergeImports superImports Theme.ownImports

/-- Python dict read `props[k]`, as an option. -/
def dictGet : List (String × PVal) → String → Option PVal
  | [], _ => none
  | (k1, v1) :: rest, k => if k1 = k then some v1 else dictGet rest k

/-- The eight values `LiteralContainerSize` admits. -/
def containerSizeValues : List PropVal :=
  [.str "1", .str "2", .str "3", .str "4", .int 1, .int 2, .int 3, .int 4]

/- ------------------------------------------------------------------ -/
/- Helper lemmas                                                      -/
/- ------------------------------------------------------------------ -/

theorem dictGet_dictSet (props : List (String × PVal)) (k : String) (v : PVal) :
    dictGet (dictSet props k v) k = some v := by
  induction props with
  | nil => simp [dictSet, dictGet]
  | cons e rest ih =>
      obtain ⟨k1, v1⟩ := e
      by_cases h : k1 = k
      · simp [dictSet, h, dictGet]
      · simp [dictSet, h, dictGet, ih]

theorem mem_addToLib_self (d : ImportDict) (lib : String) (iv : ImportVar) :
    iv ∈ lookupLib (addToLib d lib iv) lib := by
  induction d with
  | nil => simp [addToLib, lookupLib]
  | cons e es ih =>
      by_cases h : e.1 = lib
      · simp [addToLib, h, lookupLib]
      · simp [addToLib, h, lookupLib, ih]

theorem mem_addToLib_mono (d : ImportDict) (lib lib2 : String)
    (iv iv2 : ImportVar) (h : iv ∈ lookupLib d lib) :
    iv ∈ lookupLib (addToLib d lib2 iv2) lib := by
  induction d with
  | nil => simp [lookupLib] at h
  | cons e es ih =>
      obtain ⟨k, vs⟩ := e
      by_cases h2 : k = lib2 <;> by_cases h3 : k = lib <;>
        simp_all [addToLib, lookupLib, List.mem_append] <;>
        tauto

theorem insertImport_self (d : ImportDict) (lib : String) (iv : ImportVar) :
    ImportMem (insertImport d lib iv) lib iv := by
  unfold insertImport importMemB
  by_cases h : iv ∈ lookupLib d lib
  · simp [ImportMem, h]
  · simp [ImportMem, h, mem_addToLib_self]

theorem insertImport_mono (d : ImportDict) (lib lib2 : String)
    (iv iv2 : ImportVar) (h : ImportMem d lib iv) :
    ImportMem (insertImport d lib2 iv2) lib iv := by
  unfold insertImport importMemB
  by_cases h2 : iv2 ∈ lookupLib d lib2
  · simpa [ImportMem, h2] using h
  · simp [ImportMem, h2]
    exact mem_addToLib_mono d lib lib2 iv iv2 h

theorem registryMerge_radix_self :
    registryMergeDict RadixThemesComponent.getAppWrapComponents
      RadixThemesComponent.getAppWrapComponents =
      RadixThemesComponent.getAppWrapComponents := by decide

theorem foldl_replicate_appwrap (m : Nat) :
    (List.replicate m RadixThemesComponent.getAppWrapComponents).foldl
      registryMergeDict RadixThemesComponent.getAppWrapComponents =
      RadixThemesComponent.getAppWrapComponents := by
  induction m with
  | zero => rfl
  | succ k ih =>
      rw [List.replicate_succ, List.foldl_cons, registryMerge_radix_self]
      exact ih

/- ------------------------------------------------------------------ -/
/- Claim theorems                                                     -/
/- ------------------------------------------------------------------ -/

/-- Claim C1: rendering is deterministic — identical component trees
produce byte-identical source text — and `Theme._render` always adds the
same fixed `css` prop (the spread of `theme.styles.global[':root']` and
`theme.styles.global.body`), so two renders of identical Theme trees
emit identical output. -/
theorem theme_render_deterministic (t1 t2 : CompTree) (h : t1 = t2) :
    renderTree t1 = renderTree t2 ∧
    Theme.renderText t1 = Theme.renderText t2 ∧
    Theme.renderTag t1 = Theme.renderTag t2 ∧
    (Theme.renderTag t1).props.getLast? = some ("css", themeCssVar) := by
  subst h
  refine ⟨rfl, rfl, rfl, ?_⟩
  cases t1 with
  | node tag props children =>
      simp [Theme.renderTag, baseRenderTag, Tag.addProp]

/-- Witness for C1 at a concrete Theme tree. -/
theorem theme_render_deterministic_witness :
    renderTree (.node "Theme" [] []) = renderTree (.node "Theme" [] []) ∧
    Theme.renderText (.node "Theme" [] []) =
      Theme.renderText (.node "Theme" [] []) ∧
    Theme.renderTag (.node "Theme" [] []) =
      Theme.renderTag (.node "Theme" [] []) ∧
    (Theme.renderTag (.node "Theme" [] [])).props.getLast? =
      some ("css", themeCssVar) :=
  theme_render_deterministic (.node "Theme" [] []) (.node "Theme" [] []) rfl

/-- Claim C2: every Var built from two operands by `+`, indexing,
boolean combinators or string formatting has dependency set exactly
`D1 ∪ D2`; attribute access keeps the operand's own dependency set. -/
theorem var_combination_dependencies (a b : SVar) (attr : String) :
    (a.add b).dependencies = a.dependencies ∪ b.dependencies ∧
    (a.index b).dependencies = a.dependencies ∪ b.dependencies ∧
    (a.booleanAnd b).dependencies = a.dependencies ∪ b.dependencies ∧
    (a.booleanOr b).dependencies = a.dependencies ∪ b.dependencies ∧
    (a.format b).dependencies = a.dependencies ∪ b.dependencies ∧
    (a.getattr attr).dependencies = a.dependencies :=
  ⟨rfl, rfl, rfl, rfl, rfl, rfl⟩

/-- Claim C3: `Component.create` fails with `InvalidProp` for a prop
name unknown to the declared schema or a value outside the prop's
literal constraint; `Container.create` with a `size` value succeeds
exactly when the value lies in `{"1","2","3","4",1,2,3,4}`. -/
theorem container_create_validation (v : PropVal) :
    (containerCreate [("size", v)] = .ok [("size", v)] ↔
      literalContainerSizeOk v = true) ∧
    (literalContainerSizeOk v = false →
      containerCreate [("size", v)] = .error (.invalidProp "size")) ∧
    (literalContainerSizeOk v = true ↔ v ∈ containerSizeValues) ∧
    containerCreate [("unknown_prop", v)] =
      .error (.invalidProp "unknown_prop") := by
  have hc : containerCreate [("size", v)] =
      if literalContainerSizeOk v then Except.ok [("size", v)]
      else Except.error (.invalidProp "size") := by
    show (if literalContainerSizeOk v then
        Except.map (fun r => ("size", v) :: r)
          (Except.ok ([] : List (String × PropVal)))
      else Except.error (CreateError.invalidProp "size")) =
      if literalContainerSizeOk v then Except.ok [("size", v)]
      else Except.error (CreateError.invalidProp "size")
    by_cases h : literalContainerSizeOk v <;> simp [h, Except.map]
  refine ⟨?_, ?_, ?_, ?_⟩
  · rw [hc]
    by_cases h : literalContainerSizeOk v <;> simp [h]
  · intro h
    rw [hc, if_neg]
    simp [h]
  · cases v with
    | str s => simp [literalContainerSizeOk, containerSizeValues, or_assoc]
    | int n => simp [literalContainerSizeOk, containerSizeValues, or_assoc]
  · rfl

/-- Witness for C3: size "3" is accepted, size "5" is rejected. -/
theorem container_create_validation_witness :
    containerCreate [("size", .str "3")] = .ok [("size", .str "3")] ∧
    containerCreate [("size", .str "5")] = .error (.invalidProp "size") :=
  ⟨(container_create_validation (.str "3")).1.mpr (by decide),
   (container_create_validation (.str "5")).2.1 (by decide)⟩

/-- Claim C4 (code bug, evaluated at the failing input): for every base
props-to-override list, `Container._get_props_to_override` raises
`AttributeError` — it reads the misspelled attribute
`_get_props_to_overide` from `super()` and never calls it — instead of
returning the base list with `"size"` appended. -/
theorem container_props_to_override_raises (base : List String) :
    containerGetPropsToOverride base =
      .error "AttributeError: _get_props_to_overide" ∧
    containerGetPropsToOverride base ≠ .ok (base ++ ["size"]) := by
  have he : containerGetPropsToOverride base =
      .error "AttributeError: _get_props_to_overide" := rfl
  refine ⟨he, ?_⟩
  rw [he]
  intro h
  exact Except.noConfusion h

/-- Claim C5: collecting the app-wrap dicts of any positive number of
radix components into the deduplicated, priority-keyed registry yields
exactly one entry, keyed `(45, "RadixThemesColorModeProvider")`, and the
enumeration is in ascending priority order. -/
theorem app_wrap_registry_dedup (n : Nat) (h : 1 ≤ n) :
    appWrapOfPage n =
      [((45, "RadixThemesColorModeProvider"), radixThemesColorModeProvider)] ∧
    List.Pairwise (fun a b => a.1.1 < b.1.1) (appWrapOfPage n) := by
  obtain ⟨m, rfl⟩ : ∃ m, n = m + 1 :=
    ⟨n - 1, (Nat.succ_pred_eq_of_pos h).symm⟩
  have h1 : appWrapOfPage (m + 1) =
      [((45, "RadixThemesColorModeProvider"), radixThemesColorModeProvider)] := by
    unfold appWrapOfPage
    rw [List.replicate_succ, List.foldl_cons]
    have h0 : registryMergeDict [] RadixThemesComponent.getAppWrapComponents =
        RadixThemesComponent.getAppWrapComponents := by decide
    rw [h0]
    exact foldl_replicate_appwrap m
  refine ⟨h1, ?_⟩
  rw [h1]
  simp

/-- Witness for C5 at a page with three radix components. -/
theorem app_wrap_registry_dedup_witness :
    appWrapOfPage 3 =
      [((45, "RadixThemesColorModeProvider"), radixThemesColorModeProvider)] ∧
    List.Pairwise (fun a b => a.1.1 < b.1.1) (appWrapOfPage 3) :=
  app_wrap_registry_dedup 3 (by decide)

/-- Claim C6: `Theme._get_imports` merges the superclass imports with
the styles.css entry (install `False`) under the empty library and the
default `theme` import under `/utils/theme.js`; the merge keeps every
superclass entry and is deduplicated, so merging the same import dict
twice yields it once. -/
theorem theme_imports_merged (s : ImportDict) :
    ImportMem (Theme.getImports s) "" themeStylesCssImport ∧
    ImportMem (Theme.getImports s) "/utils/theme.js" themeJsDefaultImport ∧
    (∀ lib iv, ImportMem s lib iv → ImportMem (Theme.getImports s) lib iv) ∧
    mergeImports Theme.ownImports Theme.ownImports = Theme.ownImports := by
  have hform : Theme.getImports s =
      insertImport (insertImport s "" themeStylesCssImport)
        "/utils/theme.js" themeJsDefaultImport := rfl
  refine ⟨?_, ?_, ?_, ?_⟩
  · rw [hform]
    exact insertImport_mono _ _ _ _ _ (insertImport_self s "" themeStylesCssImport)
  · rw [hform]
    exact insertImport_self _ _ _
  · intro lib iv h
    rw [hform]
    exact insertImport_mono _ _ _ _ _ (insertImport_mono _ _ _ _ _ h)
  · decide

/-- Witness for C6 with empty superclass imports. -/
theorem theme_imports_merged_witness :
    ImportMem (Theme.getImports []) "" themeStylesCssImport :=
  (theme_imports_merged []).1

/-- Claim C7: every RadixThemesComponent (including Theme, ThemePanel
and Container, which declare no table of their own) carries the
prop-renaming table `{"colorScheme": "color"}`, so the logical prop
`colorScheme` is emitted under the attribute name `color` while a prop
already named `color` is left unchanged. -/
theorem radix_rename_props_table :
    RadixThemesComponent.renameProps = [("colorScheme", "color")] ∧
    Theme.renameProps = RadixThemesComponent.renameProps ∧
    ThemePanel.renameProps = RadixThemesComponent.renameProps ∧
    Container.renameProps = RadixThemesComponent.renameProps ∧
    applyRename RadixThemesComponent.renameProps "colorScheme" = "color" ∧
    applyRename RadixThemesComponent.renameProps "color" = "color" := by
  decide

/-- Claim C9 counterexample: with an empty-string tag — which is not
`None` — the alias falls back to the class name, because the source uses
Python truthiness (`component.tag or component.__class__.__name__`), not
an `is None` test: class tag `""` and class name `"Theme"` yield alias
`"RadixThemesTheme"`, not `"RadixThemes" ++ ""` as the claim requires. -/
theorem radix_create_alias_empty_tag :
    (radixThemesCreate none (some "") "Theme").«alias» =
      some "RadixThemesTheme" ∧
    (radixThemesCreate none (some "") "Theme").«alias» ≠
      some ("RadixThemes" ++ "") := by
  decide

/-- Claim C9 as amended: every component returned by
`RadixThemesComponent.create` has a non-`None` library — the class value
when one was declared, else the default `"@radix-ui/themes@^2.0.0"` —
and alias `"RadixThemes"` concatenated with the component's tag, falling
back to the class name when the tag is `None` or the empty string. -/
theorem radix_create_library_alias (classLibrary classTag : Option String)
    (className : String) :
    (radixThemesCreate classLibrary classTag className).library =
      some (classLibrary.getD radixThemesLibraryDefault) ∧
    (radixThemesCreate classLibrary classTag className).library ≠ none ∧
    (radixThemesCreate classLibrary classTag className).«alias» =
      some ("RadixThemes" ++ pyTagOrClassName classTag className) := by
  unfold radixThemesCreate componentSuperCreate
  cases classLibrary <;> simp

/-- Claim C10: `Theme.create` always stores an `accent_color` prop: a
Var argument is stored as-is, and a non-Var argument — including the
omitted `None` — is passed through `Var.create` first, so the props
handed to the superclass always carry an `accent_color` entry. -/
theorem theme_create_accent_color (children : List CompModel)
    (color_mode : Option String) (theme_panel : Bool) (accent : AccentArg)
    (props : List (String × PVal)) :
    dictGet (themeCreateArgs children color_mode theme_panel accent props).2
        "accent_color" =
      some (.svar (match accent with
        | .fromVar v => v
        | .lit s => varCreate (some s)
        | .omitted => varCreate none)) ∧
    (dictGet (themeCreateArgs children color_mode theme_panel accent
        props).2 "accent_color").isSome = true := by
  have h : dictGet (themeCreateArgs children color_mode theme_panel accent
      props).2 "accent_color" =
      some (.svar (match accent with
        | .fromVar v => v
        | .lit s => varCreate (some s)
        | .omitted => varCreate none)) := by
    cases accent <;> simp [themeCreateArgs, dictGet_dictSet]
  exact ⟨h, by rw [h]; rfl⟩

end Reflex
